import Mathlib

/-!
Verification development for the `shave` crate: a shallow embedding of its
ephemeral-service discovery and session-orchestration core (`src/tcp.rs`,
`src/socket.rs`, `src/lib.rs`, `src/client.rs`) together with theorems about
the embedded definitions.

Conventions of the embedding:
* Rust strings (`&str`) are modelled as `List Char`.
* Machine integers (`u16`, `u32`, `u64`) are modelled as `Nat` with explicit
  range bounds (`2^16`, `2^32`, `2^64`) where the Rust code checks overflow.
* `anyhow::Error` values are modelled as `String`; `context(msg)` becomes
  prepending `msg ++ ": "` to the inner message (mirroring the rendered
  error chain).
* Fallible Rust functions returning `Result<T>` become `Except String T`.
* External effects (file reads, syscalls, webdriver calls, clocks) are passed
  in explicitly as data; sequences of webdriver calls are recorded as traces.
-/

namespace Shave

/-- Decidable equality for `Except`, used to evaluate concrete runs. -/
instance {ε α : Type} [DecidableEq ε] [DecidableEq α] : DecidableEq (Except ε α) := fun a b =>
  match a, b with
  | .error e, .error f =>
    if h : e = f then .isTrue (by rw [h]) else .isFalse (by intro hc; cases hc; exact h rfl)
  | .ok x, .ok y =>
    if h : x = y then .isTrue (by rw [h]) else .isFalse (by intro hc; cases hc; exact h rfl)
  | .error _, .ok _ => .isFalse (by intro hc; cases hc)
  | .ok _, .error _ => .isFalse (by intro hc; cases hc)

/-- ASCII whitespace test, matching `Char.isWhitespace`.  The proc tcp and fd
files relevant here only contain ASCII whitespace, so this coincides with
Rust's Unicode `char::is_whitespace` on all inputs the code encounters. -/
def isWs (c : Char) : Bool :=
  c.isWhitespace

/-- Model of `str::trim`: drop whitespace from both ends. -/
def trim (s : List Char) : List Char :=
  ((s.dropWhile isWs).reverse.dropWhile isWs).reverse

/-- Worker for `splitWs`; `acc` holds the (reversed) current token. -/
def splitWsAux : List Char → List Char → List (List Char)
  | [], acc => if acc.isEmpty then [] else [acc.reverse]
  | c :: rest, acc =>
    if isWs c then
      if acc.isEmpty then splitWsAux rest [] else acc.reverse :: splitWsAux rest []
    else
      splitWsAux rest (c :: acc)

/-- Model of `str::split_whitespace`: the maximal non-whitespace runs of the
input, in order. -/
def splitWs (s : List Char) : List (List Char) :=
  splitWsAux s []

/-- Model of `str::split_once(sep)`: split at the first occurrence of `sep`,
or `none` when `sep` does not occur. -/
def split_once (sep : Char) : List Char → Option (List Char × List Char)
  | [] => none
  | c :: rest =>
    if c = sep then
      some ([], rest)
    else
      match split_once sep rest with
      | some (a, b) => some (c :: a, b)
      | none => none

/-- Model of `char::to_digit(radix)`: the numeric value of `c` as a digit in
the given radix, if it is one. -/
def digitVal (radix : Nat) (c : Char) : Option Nat :=
  let v :=
    if 48 ≤ c.toNat ∧ c.toNat ≤ 57 then some (c.toNat - 48)
    else if 97 ≤ c.toNat ∧ c.toNat ≤ 122 then some (c.toNat - 97 + 10)
    else if 65 ≤ c.toNat ∧ c.toNat ≤ 90 then some (c.toNat - 65 + 10)
    else none
  match v with
  | some d => if d < radix then some d else none
  | none => none

/-- Digit-accumulation loop of `from_str_radix`: consume the digits left to
right, failing on the first character that is not a digit in the radix. -/
def parseDigitsLoop (radix : Nat) : List Char → Nat → Except String Nat
  | [], acc => .ok acc
  | c :: rest, acc =>
    match digitVal radix c with
    | none => .error "invalid digit found in string"
    | some d => parseDigitsLoop radix rest (acc * radix + d)

/-- Strip one leading `+` sign, as `from_str_radix` does for unsigned types. -/
def stripPlus (s : List Char) : List Char :=
  match s with
  | c :: rest => if c = '+' then rest else s
  | [] => s

/-- Model of `uN::from_str_radix(s, radix)` / `str::parse::<uN>()` where
`bound = 2^N`.  The digits only ever grow the accumulated value, so checking
the final value against the bound is observably equivalent to Rust's
per-operation overflow check (only the error text of one unreachable-here
corner differs). -/
def from_str_radix (radix bound : Nat) (s : List Char) : Except String Nat :=
  let digits := stripPlus s
  if digits.isEmpty then .error "cannot parse integer from empty string"
  else
    match parseDigitsLoop radix digits 0 with
    | .error e => .error e
    | .ok v => if v < bound then .ok v else .error "number too large to fit in target type"

/-- The value of a digit string, all digits assumed valid (reference function
for stating theorems about `from_str_radix`). -/
def natOfDigits (radix : Nat) (s : List Char) : Nat :=
  s.foldl (fun a c => a * radix + (digitVal radix c).getD 0) 0

/-- Byte reversal of a 32-bit word: the effect of `u32::to_be()` on the
little-endian hosts the crate is scoped to. -/
def byteSwap32 (n : Nat) : Nat :=
  (n % 256) * 2 ^ 24 + (n / 2 ^ 8 % 256) * 2 ^ 16 + (n / 2 ^ 16 % 256) * 2 ^ 8 +
    n / 2 ^ 24 % 256

/-- `TcpEntry` from `src/tcp.rs`.  `addr` is the numeric value of the
`Ipv4Addr` in network order (`127.0.0.1` is `0x7F000001`), `port` a `u16`
value, `inode` a `u64` value. -/
structure TcpEntry where
  addr : Nat
  port : Nat
  inode : Nat
  deriving DecidableEq, Repr

/-- `Ipv4Addr::LOCALHOST`, i.e. `127.0.0.1`, as a numeric address. -/
def localhostAddr : Nat := 0x7F000001

/-- Core of `parse_tcp_line` from `src/tcp.rs`, operating on the
whitespace-separated tokens of the line exactly as the Rust iterator chain
does: skip one token, read `address:port` from the next, skip seven more,
read the decimal inode from the next.  (The Rust error messages additionally
interpolate the offending line; the message text is abbreviated here.) -/
def parse_tcp_tokens (tokens : List (List Char)) : Except String TcpEntry :=
  match tokens.drop 1 with
  | [] => .error "failed to find 'local address' component"
  | localAddr :: parts =>
    match split_once ':' localAddr with
    | none => .error "encountered malformed local address in proc tcp line"
    | some (addrStr, portStr) =>
      match from_str_radix 16 (2 ^ 32) addrStr with
      | .error _ => .error "encountered malformed address in proc tcp line"
      | .ok a =>
        match from_str_radix 16 (2 ^ 16) portStr with
        | .error _ => .error "encountered malformed port number in proc tcp line"
        | .ok port =>
          match parts.drop 7 with
          | [] => .error "failed to find 'inode' component"
          | inodeStr :: _ =>
            match from_str_radix 10 (2 ^ 64) inodeStr with
            | .error _ => .error "encountered malformed inode in proc tcp line"
            | .ok inode => .ok { addr := byteSwap32 a, port := port, inode := inode }

/-- `parse_tcp_line` from `src/tcp.rs`: tokenize by whitespace, then extract
address, port and inode. -/
def parse_tcp_line (line : List Char) : Except String TcpEntry :=
  parse_tcp_tokens (splitWs line)

/-- The item sequence produced by `TcpEntryIter::next` (`src/tcp.rs`) over a
list of successfully read lines: blank lines (after trimming) are skipped,
the first non-blank line is consumed as the header, and every further
non-blank line yields one `parse_tcp_line` result. -/
def tcpItems (skippedHeader : Bool) : List (List Char) → List (Except String TcpEntry)
  | [] => []
  | l :: rest =>
    let t := trim l
    if t.isEmpty then
      tcpItems skippedHeader rest
    else if skippedHeader then
      parse_tcp_line t :: tcpItems true rest
    else
      tcpItems true rest

/-- `parse_file` from `src/tcp.rs`: the iterator starts with the header not
yet skipped. -/
def parse_file (lines : List (List Char)) : List (Except String TcpEntry) :=
  tcpItems false lines

/-! ## `src/socket.rs`: socket inode enumeration -/

/-- `libc::S_IFMT`: the file-type bit mask of `st_mode`. -/
def S_IFMT : Nat := 0xF000

/-- `libc::S_IFSOCK`: the socket file-type bits. -/
def S_IFSOCK : Nat := 0xC000

/-- `is_socket` from `src/socket.rs`. -/
def is_socket (mode : Nat) : Bool :=
  mode &&& S_IFMT == S_IFSOCK

/-- One entry of the `/proc/<pid>/fd` directory as the code observes it: the
outcome of `stat64` on the entry's path, namely its `st_mode` and `st_ino`
when the call succeeds. -/
structure FdEntry where
  statRes : Except String (Nat × Nat)
  deriving Repr, DecidableEq

/-- `check_socket` from `src/socket.rs`: stat the path, succeed with the
inode for socket-typed files, fail otherwise. -/
def check_socket (e : FdEntry) : Except String Nat :=
  match e.statRes with
  | .error err => .error err
  | .ok (mode, ino) =>
    if is_socket mode then .ok ino
    else .error "file is not a socket: no socket found"

/-- `socket_inodes` from `src/socket.rs`.  `dir` is the outcome of
`read_dir` on `/proc/<pid>/fd`: a hard error, or the sequence of directory
entries, each of which may itself fail to be read.  Entries whose
`check_socket` fails are skipped without producing an item. -/
def socket_inodes (pid : Nat) (dir : Except String (List (Except String FdEntry))) :
    Except String (List (Except String Nat)) :=
  match dir with
  | .error e => .error ("failed to read directory `/proc/" ++ toString pid ++ "/fd`: " ++ e)
  | .ok entries =>
    .ok (entries.filterMap fun ent =>
      match ent with
      | .ok fe =>
        match check_socket fe with
        | .ok ino => some (.ok ino)
        | .error _ => none
      | .error e =>
        some (.error ("failed to read directory entry below `/proc/" ++ toString pid ++
          "/fd`: " ++ e)))

/-! ## `src/lib.rs`: port discovery -/

/-- `PORT_FIND_TIMEOUT` from `src/lib.rs` (30 seconds), in milliseconds. -/
def PORT_FIND_TIMEOUT : Nat := 30000

/-- The closure passed to `Iterator::find` inside `find_localhost_port`:
an `Ok` entry matches when its inode is among the collected socket inodes
and its address is `Ipv4Addr::LOCALHOST`; an `Err` item always matches. -/
def matchPred (inodes : List Nat) (r : Except String TcpEntry) : Bool :=
  match r with
  | .ok entry =>
    if inodes.contains entry.inode then entry.addr == localhostAddr else false
  | .error _ => true

/-- What one iteration of the poll loop in `find_localhost_port` observes:
the collected result of `socket_inodes(pid)` (`inodesRes`), the result of
opening and reading the proc tcp table (`entriesRes`), and the value of
`start.elapsed()` in milliseconds at this iteration's timeout check. -/
structure Poll where
  inodesRes : Except String (List Nat)
  entriesRes : Except String (List (Except String TcpEntry))
  elapsed : Nat
  deriving Repr

/-- Outcome of a run of `find_localhost_port`: `outcome` is `none` when the
supplied observation list was exhausted with the loop still running, and the
function's `Result` otherwise; `sleeps` lists the duration in milliseconds of
each `sleep` executed, in order. -/
structure DiscoveryRun where
  outcome : Option (Except String Nat)
  sleeps : List Nat
  deriving Repr, DecidableEq

/-- The timeout error produced by `bail!` in `find_localhost_port`. -/
def timeoutMsg (pid : Nat) : String :=
  "failed to find local host port for process " ++ toString pid

/-- `find_localhost_port` from `src/lib.rs`, driven by the per-iteration
observations in `polls`.  Each iteration collects the socket inodes
(propagating any error), parses the tcp table (propagating any open error),
and scans the items with `Iterator::find`: a selected `Ok` entry ends the
loop with its port, a selected `Err` item is propagated with added context,
and when nothing is selected the loop either fails with the timeout error
(once `start.elapsed()` reached `PORT_FIND_TIMEOUT`) or sleeps one
millisecond and retries. -/
def find_localhost_port (pid : Nat) : List Poll → DiscoveryRun
  | [] => { outcome := none, sleeps := [] }
  | p :: rest =>
    match p.inodesRes with
    | .error e => { outcome := some (.error e), sleeps := [] }
    | .ok inodes =>
      match p.entriesRes with
      | .error e => { outcome := some (.error e), sleeps := [] }
      | .ok entries =>
        match entries.find? (matchPred inodes) with
        | some (.ok entry) => { outcome := some (.ok entry.port), sleeps := [] }
        | some (.error e) =>
          { outcome := some (.error ("failed to find localhost proc tcp entry: " ++ e)),
            sleeps := [] }
        | none =>
          if PORT_FIND_TIMEOUT ≤ p.elapsed then
            { outcome := some (.error (timeoutMsg pid)), sleeps := [] }
          else
            let r := find_localhost_port pid rest
            { outcome := r.outcome, sleeps := 1 :: r.sleeps }

/-- A poll iteration that finds no candidate: inode collection and table
parsing succeed, and the scan selects no item. -/
def noMatch (p : Poll) : Bool :=
  match p.inodesRes, p.entriesRes with
  | .ok inodes, .ok entries => (entries.find? (matchPred inodes)).isNone
  | _, _ => false

/-! ## `src/lib.rs`: `with_child` and `with_fantoccini` -/

/-- `with_child` from `src/lib.rs`: run the inner future to its result
`fres`, then `kill` the child exactly once (its result is `killRes`); a kill
failure is propagated (with context) by `?`, replacing `fres`.  The second
component counts the kill attempts made. -/
def with_child {T : Type} (fres : Except String T) (killRes : Except String Unit) :
    Except String T × Nat :=
  match killRes with
  | .error e => (.error ("failed to shut down webdriver process: " ++ e), 1)
  | .ok _ => (fres, 1)

/-- `with_fantoccini` from `src/lib.rs`, reduced to its process-lifecycle
skeleton: spawn the chromedriver process (`spawnRes`); on success run the
inner closure through `with_child`.  The child is never polled before
`Child::id()` is read, so the pid is always available at that point and the
lookup cannot fail.  The second component counts kill attempts. -/
def with_fantoccini {T : Type} (spawnRes : Except String Unit) (fres : Except String T)
    (killRes : Except String Unit) : Except String T × Nat :=
  match spawnRes with
  | .error e => (.error ("failed to launch `chromedriver` instance: " ++ e), 0)
  | .ok _ => with_child fres killRes

/-! ## The capture sequences: webdriver call traces -/

/-- One webdriver call issued during a capture sequence. -/
inductive Ev where
  | setWindowSize (w h : Nat)
  | goto (url : String)
  | waitFor (sel : String)
  | exec (js : String)
  | find (sel : String)
  | elemShot
  | pageShot
  | close
  deriving DecidableEq, Repr

/-- The number of session-close calls in a trace. -/
def closeCount : List Ev → Nat
  | [] => 0
  | Ev.close :: tr => closeCount tr + 1
  | _ :: tr => closeCount tr

/-- Injected outcomes for the webdriver calls a capture sequence can make.
`findRes`/`elemShotRes` are consulted only when an element selector is
configured, `pageShotRes` only when none is, `waitRes` only when an await
selector is configured, and so on. -/
structure WdEnv where
  setRes : Except String Unit
  gotoRes : Except String Unit
  waitRes : Except String Unit
  execRes : Except String Unit
  findRes : Except String Unit
  elemShotRes : Except String (List Nat)
  pageShotRes : Except String (List Nat)
  closeRes : Except String Unit
  deriving Repr

/-- The capture-and-close closure of `screenshot` in `src/lib.rs`, run
against injected call outcomes; the second component is the trace of calls
issued, in order.  The sequence is: set the window size to 3840x2160,
navigate, optionally await a selector, capture (element or full page), and —
only reached when all of the above succeeded — close the session.  Each
failure propagates immediately via `?` with its context message. -/
def screenshot (url : String) (awaitSel sel : Option String) (env : WdEnv) :
    Except String (List Nat) × List Ev :=
  let tr0 : List Ev := [.setWindowSize 3840 2160]
  match env.setRes with
  | .error e => (.error e, tr0)
  | .ok _ =>
    let tr1 := tr0 ++ [.goto url]
    match env.gotoRes with
    | .error e => (.error ("failed to navigate to " ++ url ++ ": " ++ e), tr1)
    | .ok _ =>
      let awaited : Except String Unit × List Ev :=
        match awaitSel with
        | none => (Except.ok (), tr1)
        | some s =>
          match env.waitRes with
          | .error e => (.error ("failed to await `" ++ s ++ "`: " ++ e), tr1 ++ [.waitFor s])
          | .ok _ => (.ok (), tr1 ++ [.waitFor s])
      match awaited with
      | (.error e, tr) => (.error e, tr)
      | (.ok _, tr2) =>
        let captured : Except String (List Nat) × List Ev :=
          match sel with
          | some s =>
            match env.findRes with
            | .error e => (.error ("failed to find `" ++ s ++ "`: " ++ e), tr2 ++ [.find s])
            | .ok _ =>
              match env.elemShotRes with
              | .error e =>
                (.error ("failed to screenshot `" ++ s ++ "`: " ++ e),
                  tr2 ++ [.find s, .elemShot])
              | .ok png => (.ok png, tr2 ++ [.find s, .elemShot])
          | none =>
            match env.pageShotRes with
            | .error e =>
              (.error ("failed to screenshot `" ++ url ++ "`: " ++ e), tr2 ++ [.pageShot])
            | .ok png => (.ok png, tr2 ++ [.pageShot])
        match captured with
        | (.error e, tr) => (.error e, tr)
        | (.ok png, tr3) =>
          let tr4 := tr3 ++ [.close]
          match env.closeRes with
          | .error e => (.error ("failed to close webdriver client connection: " ++ e), tr4)
          | .ok _ => (.ok png, tr4)

/-- Whether every step of the `screenshot` sequence before the session close
succeeds, given the configured selectors and the injected call outcomes. -/
def preCloseOk (awaitSel sel : Option String) (env : WdEnv) : Bool :=
  env.setRes.isOk && env.gotoRes.isOk &&
    (awaitSel.isNone || env.waitRes.isOk) &&
    (match sel with
     | some _ => env.findRes.isOk && env.elemShotRes.isOk
     | none => env.pageShotRes.isOk)

/-- Options of `Client::screenshot` in `src/client.rs` that shape the call
sequence (the selectors are carried as the strings interpolated into the
call's error contexts). -/
structure ClientOpts where
  window_size : Option (Nat × Nat)
  await_selector : Option String
  remove_selector : Option String
  selector : Option String
  deriving Repr

/-- `Client::screenshot` from `src/client.rs`, run against injected call
outcomes; the second component is the trace of calls issued, in order.  The
window is sized to the configured dimensions, defaulting to 3840x2160; then
navigate, optionally await a selector, optionally execute the DOM-removal
script, and capture (element or full page).  No close happens here
(`Client::destroy` is a separate operation). -/
def client_screenshot (url : String) (opts : ClientOpts) (env : WdEnv) :
    Except String (List Nat) × List Ev :=
  let wh := opts.window_size.getD (3840, 2160)
  let tr0 : List Ev := [.setWindowSize wh.1 wh.2]
  match env.setRes with
  | .error e => (.error e, tr0)
  | .ok _ =>
    let tr1 := tr0 ++ [.goto url]
    match env.gotoRes with
    | .error e => (.error ("failed to navigate to " ++ url ++ ": " ++ e), tr1)
    | .ok _ =>
      let awaited : Except String Unit × List Ev :=
        match opts.await_selector with
        | none => (Except.ok (), tr1)
        | some s =>
          match env.waitRes with
          | .error e => (.error ("failed to await `" ++ s ++ "`: " ++ e), tr1 ++ [.waitFor s])
          | .ok _ => (.ok (), tr1 ++ [.waitFor s])
      match awaited with
      | (.error e, tr) => (.error e, tr)
      | (.ok _, tr2) =>
        let removed : Except String Unit × List Ev :=
          match opts.remove_selector with
          | none => (Except.ok (), tr2)
          | some s =>
            match env.execRes with
            | .error e => (.error ("failed to remove `" ++ s ++ "`: " ++ e), tr2 ++ [.exec s])
            | .ok _ => (.ok (), tr2 ++ [.exec s])
        match removed with
        | (.error e, tr) => (.error e, tr)
        | (.ok _, tr3) =>
          match opts.selector with
          | some s =>
            match env.findRes with
            | .error e => (.error ("failed to find `" ++ s ++ "`: " ++ e), tr3 ++ [.find s])
            | .ok _ =>
              match env.elemShotRes with
              | .error e =>
                (.error ("failed to screenshot `" ++ s ++ "`: " ++ e),
                  tr3 ++ [.find s, .elemShot])
              | .ok png => (.ok png, tr3 ++ [.find s, .elemShot])
          | none =>
            match env.pageShotRes with
            | .error e =>
              (.error ("failed to screenshot `" ++ url ++ "`: " ++ e), tr3 ++ [.pageShot])
            | .ok png => (.ok png, tr3 ++ [.pageShot])

/-! ## Concrete poll observations used to exercise the discovery loop -/

/-- A poll whose table holds exactly one loopback entry with a matching
inode, observed right at the start of discovery. -/
def pollMatching : Poll :=
  { inodesRes := .ok [5],
    entriesRes := .ok [.ok { addr := localhostAddr, port := 1234, inode := 5 }],
    elapsed := 0 }

/-- The same matching observation one millisecond in. -/
def pollMatchingLater : Poll :=
  { inodesRes := .ok [5],
    entriesRes := .ok [.ok { addr := localhostAddr, port := 1234, inode := 5 }],
    elapsed := 1 }

/-- A poll whose table holds a single malformed line. -/
def pollMalformed : Poll :=
  { inodesRes := .ok [5], entriesRes := .ok [.error "bad line"], elapsed := 0 }

/-- A poll that observes an empty table at the start of discovery. -/
def pollEmptyStart : Poll :=
  { inodesRes := .ok [], entriesRes := .ok [], elapsed := 0 }

/-- A poll that observes an empty table right at the timeout. -/
def pollEmptyTimeout : Poll :=
  { inodesRes := .ok [], entriesRes := .ok [], elapsed := 30000 }

/-! ## Lemmas about numeric parsing -/

theorem digitVal_lt {r : Nat} {c : Char} {d : Nat} (h : digitVal r c = some d) : d < r := by
  simp only [digitVal] at h
  split at h
  · split at h
    · cases h
      assumption
    · cases h
  · cases h

theorem digitVal_isSome_imp {r : Nat} {c x : Char} (hs : ∀ y ∈ [c], (digitVal r y).isSome)
    (hx : digitVal r x = none) : c ≠ x := by
  intro h
  have := hs c (List.mem_singleton.mpr rfl)
  rw [h, hx] at this
  cases this

theorem parseDigitsLoop_eq_fold (r : Nat) (s : List Char) :
    ∀ acc : Nat, (∀ c ∈ s, (digitVal r c).isSome) →
      parseDigitsLoop r s acc =
        .ok (s.foldl (fun a c => a * r + (digitVal r c).getD 0) acc) := by
  induction s with
  | nil => intro acc _; rfl
  | cons c t ih =>
    intro acc hall
    have hc : (digitVal r c).isSome := hall c (List.mem_cons_self c t)
    obtain ⟨d, hd⟩ := Option.isSome_iff_exists.mp hc
    simp only [parseDigitsLoop, hd, List.foldl_cons, Option.getD_some]
    exact ih _ fun x hx => hall x (List.mem_cons_of_mem _ hx)

theorem foldl_digits_lt (r : Nat) (s : List Char) :
    ∀ acc : Nat, (∀ c ∈ s, (digitVal r c).isSome) →
      s.foldl (fun a c => a * r + (digitVal r c).getD 0) acc < (acc + 1) * r ^ s.length := by
  induction s with
  | nil => intro acc _; simp
  | cons c t ih =>
    intro acc hall
    have hc : (digitVal r c).isSome := hall c (List.mem_cons_self c t)
    obtain ⟨d, hd⟩ := Option.isSome_iff_exists.mp hc
    have hdlt : d < r := digitVal_lt hd
    simp only [List.foldl_cons, hd, Option.getD_some, List.length_cons]
    have h1 := ih (acc * r + d) fun x hx => hall x (List.mem_cons_of_mem _ hx)
    have h2 : (acc * r + d + 1) * r ^ t.length ≤ (acc + 1) * r ^ (t.length + 1) := by
      have hstep : acc * r + d + 1 ≤ (acc + 1) * r := by
        have : d + 1 ≤ r := hdlt
        calc acc * r + d + 1 = acc * r + (d + 1) := by omega
          _ ≤ acc * r + r := by omega
          _ = (acc + 1) * r := by ring
      calc (acc * r + d + 1) * r ^ t.length ≤ (acc + 1) * r * r ^ t.length :=
            Nat.mul_le_mul_right _ hstep
        _ = (acc + 1) * r ^ (t.length + 1) := by ring
    exact lt_of_lt_of_le h1 h2

theorem natOfDigits_lt (r : Nat) (s : List Char)
    (hall : ∀ c ∈ s, (digitVal r c).isSome) : natOfDigits r s < r ^ s.length := by
  have := foldl_digits_lt r s 0 hall
  simpa [natOfDigits] using this

theorem from_str_radix_eq (r bound : Nat) (s : List Char) (hne : s ≠ [])
    (hall : ∀ c ∈ s, (digitVal r c).isSome) (hbound : natOfDigits r s < bound) :
    from_str_radix r bound s = .ok (natOfDigits r s) := by
  have hplus : stripPlus s = s := by
    cases s with
    | nil => rfl
    | cons c t =>
      have hc : (digitVal r c).isSome := hall c (List.mem_cons_self c t)
      have hcp : c ≠ '+' := by
        intro h
        rw [h] at hc
        have : digitVal r '+' = none := by
          simp [digitVal]
        rw [this] at hc
        cases hc
      simp [stripPlus, hcp]
  have hfold := parseDigitsLoop_eq_fold r s 0 hall
  simp only [from_str_radix, hplus]
  rw [if_neg (by simpa [List.isEmpty_iff] using hne), hfold]
  have hb : List.foldl (fun a c => a * r + (digitVal r c).getD 0) 0 s < bound := hbound
  simp [natOfDigits, hb]

theorem split_once_of_append (sep : Char) (a b : List Char) (ha : sep ∉ a) :
    split_once sep (a ++ sep :: b) = some (a, b) := by
  induction a with
  | nil => simp [split_once]
  | cons c t ih =>
    have hcs : ¬(c = sep) := fun h => ha (h ▸ List.mem_cons_self c t)
    have ht : sep ∉ t := fun h => ha (List.mem_cons_of_mem _ h)
    simp [split_once, hcs, ih ht]

/-! ## Claim theorems -/

/-- C2.  For every well-formed proc tcp table line — one whose 2nd
whitespace token is an 8-hex-digit address, a colon and a 4-hex-digit port,
and whose 10th whitespace token (7 fields after the local address) is a
decimal number fitting `u64` — `parse_tcp_line` extracts the local address
as the hex value with its four bytes reversed to network order, the port as
the hex value of the digits after the colon, and the inode as the decimal
value of the 10th token. -/
theorem parse_tcp_line_well_formed (line t0 a p i : List Char)
    (mid rest : List (List Char))
    (hsplit : splitWs line = t0 :: (a ++ ':' :: p) :: (mid ++ i :: rest))
    (haLen : a.length = 8) (ha : ∀ c ∈ a, (digitVal 16 c).isSome)
    (hpLen : p.length = 4) (hp : ∀ c ∈ p, (digitVal 16 c).isSome)
    (hmid : mid.length = 7)
    (hiNe : i ≠ []) (hi : ∀ c ∈ i, (digitVal 10 c).isSome)
    (hiLt : natOfDigits 10 i < 2 ^ 64) :
    parse_tcp_line line =
      .ok { addr := byteSwap32 (natOfDigits 16 a), port := natOfDigits 16 p,
            inode := natOfDigits 10 i } := by
  have hcolon : ':' ∉ a := by
    intro hmem
    have := ha _ hmem
    have hnone : digitVal 16 ':' = none := by decide
    rw [hnone] at this
    cases this
  have haNe : a ≠ [] := by
    intro h
    rw [h] at haLen
    cases haLen
  have hpNe : p ≠ [] := by
    intro h
    rw [h] at hpLen
    cases hpLen
  have h1 : split_once ':' (a ++ ':' :: p) = some (a, p) := split_once_of_append _ _ _ hcolon
  have h2 : from_str_radix 16 4294967296 a = .ok (natOfDigits 16 a) := by
    refine from_str_radix_eq 16 4294967296 a haNe ha ?_
    have := natOfDigits_lt 16 a ha
    rw [haLen] at this
    calc natOfDigits 16 a < 16 ^ 8 := this
      _ ≤ 4294967296 := by norm_num
  have h3 : from_str_radix 16 65536 p = .ok (natOfDigits 16 p) := by
    refine from_str_radix_eq 16 65536 p hpNe hp ?_
    have := natOfDigits_lt 16 p hp
    rw [hpLen] at this
    calc natOfDigits 16 p < 16 ^ 4 := this
      _ ≤ 65536 := by norm_num
  have h4 : (mid ++ i :: rest).drop 7 = i :: rest := by
    rw [← hmid]
    exact List.drop_left _ _
  have h5 : from_str_radix 10 18446744073709551616 i = .ok (natOfDigits 10 i) :=
    from_str_radix_eq 10 18446744073709551616 i hiNe hi (by simpa using hiLt)
  simp [parse_tcp_line, hsplit, parse_tcp_tokens, h1, h2, h3, h4, h5]

/-- Witness for C2: the example line from the crate's own test suite.  Hex
address `0100007F` yields the network-order value of `127.0.0.1`
(`2130706433 = 0x7F000001`), hex port `B1AB` yields `45483`, and the 10th
token yields inode `1109147`. -/
theorem parse_tcp_line_well_formed_witness :
    splitWs ("   0: 0100007F:B1AB 00000000:0000 0A 00000000:00000000 00:00000000 00000000  1000        0 1109147 1 00000000481c5bfd 100 0 0 10 0".toList) =
      "0:".toList :: ("0100007F".toList ++ ':' :: "B1AB".toList) ::
        (["00000000:0000".toList, "0A".toList, "00000000:00000000".toList,
          "00:00000000".toList, "00000000".toList, "1000".toList, "0".toList] ++
          "1109147".toList ::
            ["1".toList, "00000000481c5bfd".toList, "100".toList, "0".toList, "0".toList,
              "10".toList, "0".toList]) ∧
    parse_tcp_line ("   0: 0100007F:B1AB 00000000:0000 0A 00000000:00000000 00:00000000 00000000  1000        0 1109147 1 00000000481c5bfd 100 0 0 10 0".toList) =
      .ok { addr := 2130706433, port := 45483, inode := 1109147 } := by
  constructor
  · decide
  · rw [parse_tcp_line_well_formed _ "0:".toList "0100007F".toList "B1AB".toList
      "1109147".toList
      ["00000000:0000".toList, "0A".toList, "00000000:00000000".toList,
        "00:00000000".toList, "00000000".toList, "1000".toList, "0".toList]
      ["1".toList, "00000000481c5bfd".toList, "100".toList, "0".toList, "0".toList,
        "10".toList, "0".toList]
      (by decide) (by decide) (by decide) (by decide) (by decide) (by decide)
      (by decide) (by decide) (by decide)]
    decide

/-- C8.  The item sequence of the tcp-table iterator, once the header has
been skipped, is `parse_tcp_line` applied to every trimmed non-blank line. -/
theorem tcpItems_true_eq (lines : List (List Char)) :
    tcpItems true lines =
      ((lines.map trim).filter (fun l => !l.isEmpty)).map parse_tcp_line := by
  induction lines with
  | nil => rfl
  | cons l rest ih =>
    by_cases h : (trim l).isEmpty
    · simp [tcpItems, h, ih]
    · simp [tcpItems, h, ih]

/-- C8.  For every input line sequence, the tcp-table iterator skips blank
lines without counting them as data rows, skips the first non-blank line as
the header (purely by position), and yields exactly one `parse_tcp_line`
result per further non-blank line — so a malformed line contributes exactly
its own error item and all subsequent well-formed lines still yield parsed
entries. -/
theorem parse_file_characterization (lines : List (List Char)) :
    parse_file lines =
      (((lines.map trim).filter (fun l => !l.isEmpty)).drop 1).map parse_tcp_line := by
  rw [parse_file]
  induction lines with
  | nil => rfl
  | cons l rest ih =>
    by_cases h : (trim l).isEmpty
    · simp [tcpItems, h, ih]
    · simp [tcpItems, h, tcpItems_true_eq]

/-- C9.  Socket inode enumeration: when the file-descriptor directory itself
cannot be read the whole enumeration is one hard error; when it can be read
and its entries are delivered, the enumeration yields exactly the inodes of
the socket-typed entries — entries that are not sockets or whose metadata
cannot be stat'ed are silently skipped, producing no item (and in particular
no error item). -/
theorem socket_inodes_spec (pid : Nat) :
    (∀ entries : List FdEntry,
        socket_inodes pid (.ok (entries.map Except.ok)) =
          .ok (entries.filterMap fun fe =>
            match fe.statRes with
            | .ok (mode, ino) => if is_socket mode then some (Except.ok ino) else none
            | .error _ => none)) ∧
      ∀ e : String,
        socket_inodes pid (.error e) =
          .error ("failed to read directory `/proc/" ++ toString pid ++ "/fd`: " ++ e) := by
  constructor
  · intro entries
    simp only [socket_inodes, List.filterMap_map]
    refine congrArg Except.ok (List.filterMap_congr fun fe _ => ?_)
    simp only [Function.comp_apply]
    cases h : fe.statRes with
    | error err => simp [check_socket, h]
    | ok mi =>
      obtain ⟨mode, ino⟩ := mi
      by_cases hs : is_socket mode
      · simp [check_socket, h, hs]
      · simp [check_socket, h, hs]
  · intro e
    rfl

/-- C1.  Whenever port discovery returns a port, that port comes from a
tcp-table entry of one of the poll iterations whose inode is among the
socket inodes enumerated for the pid in that same iteration and whose local
address is the loopback address; an entry failing either check is never the
source of the returned port. -/
theorem discovery_port_from_checked_entry (pid port : Nat) (polls : List Poll)
    (h : (find_localhost_port pid polls).outcome = some (.ok port)) :
    ∃ p ∈ polls, ∃ inodes entries entry,
      p.inodesRes = .ok inodes ∧ p.entriesRes = .ok entries ∧
        Except.ok entry ∈ entries ∧ entry.inode ∈ inodes ∧
        entry.addr = localhostAddr ∧ entry.port = port := by
  induction polls with
  | nil => simp [find_localhost_port] at h
  | cons p rest ih =>
    obtain ⟨ir, er, el⟩ := p
    cases ir with
    | error e => simp [find_localhost_port] at h
    | ok inodes =>
      cases er with
      | error e => simp [find_localhost_port] at h
      | ok entries =>
        cases hfind : entries.find? (matchPred inodes) with
        | none =>
          by_cases ht : PORT_FIND_TIMEOUT ≤ el
          · simp [find_localhost_port, hfind, ht] at h
          · simp only [find_localhost_port, hfind] at h
            rw [if_neg ht] at h
            obtain ⟨q, hqmem, hrest⟩ := ih h
            exact ⟨q, List.mem_cons_of_mem _ hqmem, hrest⟩
        | some r =>
          cases r with
          | error e => simp [find_localhost_port, hfind] at h
          | ok entry =>
            simp [find_localhost_port, hfind] at h
            have hmem := List.mem_of_find?_eq_some hfind
            have hpred := List.find?_some hfind
            simp only [matchPred] at hpred
            by_cases hc : inodes.contains entry.inode
            · rw [if_pos hc] at hpred
              have haddr : entry.addr = localhostAddr := by simpa using hpred
              have hmemI : entry.inode ∈ inodes := List.elem_iff.mp hc
              exact ⟨⟨.ok inodes, .ok entries, el⟩, List.mem_cons_self _ _, inodes, entries,
                entry, rfl, rfl, hmem, hmemI, haddr, h⟩
            · rw [if_neg hc] at hpred
              cases hpred

/-- Witness for C1: a single poll whose tcp table holds one loopback entry
with a matching inode yields that entry's port. -/
theorem discovery_port_from_checked_entry_witness :
    (find_localhost_port 7 [pollMatching]).outcome = some (.ok 1234) ∧
      ∃ p ∈ [pollMatching], ∃ inodes entries entry,
        p.inodesRes = .ok inodes ∧ p.entriesRes = .ok entries ∧
          Except.ok entry ∈ entries ∧ entry.inode ∈ inodes ∧
          entry.addr = localhostAddr ∧ entry.port = 1234 :=
  ⟨rfl, discovery_port_from_checked_entry 7 1234 _ rfl⟩

/-- C3.  When every poll iteration finds no candidate, the iterations whose
elapsed time is below `PORT_FIND_TIMEOUT` each sleep one millisecond and
retry, and the first iteration at or past the timeout fails with the timeout
error, whose message names the pid. -/
theorem discovery_timeout (pid : Nat) (ps : List Poll) (q : Poll)
    (hall : ∀ p ∈ ps, noMatch p = true ∧ p.elapsed < PORT_FIND_TIMEOUT)
    (hq : noMatch q = true) (hqt : PORT_FIND_TIMEOUT ≤ q.elapsed) :
    (find_localhost_port pid (ps ++ [q])).outcome = some (.error (timeoutMsg pid)) ∧
      (find_localhost_port pid (ps ++ [q])).sleeps = List.replicate ps.length 1 ∧
      ∃ s, timeoutMsg pid = s ++ toString pid := by
  induction ps with
  | nil =>
    obtain ⟨ir, er, el⟩ := q
    cases ir with
    | error e => simp [noMatch] at hq
    | ok inodes =>
      cases er with
      | error e => simp [noMatch] at hq
      | ok entries =>
        have hfind : entries.find? (matchPred inodes) = none := by
          simpa [noMatch, Option.isNone_iff_eq_none] using hq
        refine ⟨?_, ?_, "failed to find local host port for process ", rfl⟩
        · simp [find_localhost_port, hfind, hqt]
        · simp [find_localhost_port, hfind, hqt]
  | cons p ps ih =>
    have hp := hall p (List.mem_cons_self _ _)
    have hrest : ∀ x ∈ ps, noMatch x = true ∧ x.elapsed < PORT_FIND_TIMEOUT :=
      fun x hx => hall x (List.mem_cons_of_mem _ hx)
    obtain ⟨ihout, ihsleep, ihname⟩ := ih hrest
    obtain ⟨hpm, hpel⟩ := hp
    obtain ⟨ir, er, el⟩ := p
    cases ir with
    | error e => simp [noMatch] at hpm
    | ok inodes =>
      cases er with
      | error e => simp [noMatch] at hpm
      | ok entries =>
        have hfind : entries.find? (matchPred inodes) = none := by
          simpa [noMatch, Option.isNone_iff_eq_none] using hpm
        have hnt : ¬PORT_FIND_TIMEOUT ≤ el := Nat.not_le.mpr hpel
        refine ⟨?_, ?_, ihname⟩
        · simp only [List.cons_append, find_localhost_port, hfind]
          rw [if_neg hnt]
          exact ihout
        · simp only [List.cons_append, find_localhost_port, hfind]
          rw [if_neg hnt]
          simp [ihsleep, List.replicate_succ]

/-- Witness for C3: one below-timeout empty poll followed by one at the
timeout produces the pid-naming timeout error after a single one-millisecond
sleep. -/
theorem discovery_timeout_witness :
    (∀ p ∈ [pollEmptyStart], noMatch p = true ∧ p.elapsed < PORT_FIND_TIMEOUT) ∧
      noMatch pollEmptyTimeout = true ∧
      PORT_FIND_TIMEOUT ≤ pollEmptyTimeout.elapsed ∧
      ((find_localhost_port 7 [pollEmptyStart, pollEmptyTimeout]).outcome =
          some (.error (timeoutMsg 7)) ∧
        (find_localhost_port 7 [pollEmptyStart, pollEmptyTimeout]).sleeps =
          List.replicate 1 1 ∧
        ∃ s, timeoutMsg 7 = s ++ toString 7) :=
  ⟨by decide, by decide, by decide,
    discovery_timeout 7 [pollEmptyStart] pollEmptyTimeout
      (by decide) (by decide) (by decide)⟩

/-- Counterexample to C7 as stated: the first poll's table holds one
malformed line and the second poll holds a perfect loopback match with a
matching inode.  Were the malformed line merely skipped, or the failure
confined to the first attempt with a retry on the next poll, discovery would
return port 1234; instead the malformed line is selected as the match
candidate and its error aborts the discovery as a whole. -/
theorem discovery_malformed_counterexample :
    (find_localhost_port 7 [pollMalformed, pollMatchingLater]).outcome =
        some (.error ("failed to find localhost proc tcp entry: bad line")) ∧
      (find_localhost_port 7 [pollMalformed, pollMatchingLater]).outcome ≠
        some (.ok 1234) :=
  ⟨rfl, by decide⟩

/-- C7 amended.  A tcp-table line whose parse failed is never skipped during
the scan: the match predicate selects every error item it reaches, and when
an error item is the selected candidate the parse error is propagated (with
context) out of `find_localhost_port`, aborting the discovery as a whole
rather than being retried on a later poll iteration. -/
theorem discovery_malformed_aborts (pid : Nat) (p : Poll) (rest : List Poll)
    (inodes : List Nat) (entries : List (Except String TcpEntry)) (e : String)
    (hin : p.inodesRes = .ok inodes) (hen : p.entriesRes = .ok entries)
    (hfind : entries.find? (matchPred inodes) = some (.error e)) :
    (find_localhost_port pid (p :: rest)).outcome =
        some (.error ("failed to find localhost proc tcp entry: " ++ e)) ∧
      matchPred inodes (.error e) = true := by
  obtain ⟨ir, er, el⟩ := p
  simp only at hin hen
  cases hin
  cases hen
  exact ⟨by simp [find_localhost_port, hfind], rfl⟩

/-- Witness for C7's amended statement: a malformed line followed by a
perfectly matching poll still aborts the discovery with the context-wrapped
parse error. -/
theorem discovery_malformed_aborts_witness :
    pollMalformed.inodesRes = .ok [5] ∧
      pollMalformed.entriesRes = .ok [.error "bad line"] ∧
      ([(.error "bad line" : Except String TcpEntry)].find? (matchPred [5]) =
        some (.error "bad line")) ∧
      ((find_localhost_port 9 [pollMalformed]).outcome =
          some (.error ("failed to find localhost proc tcp entry: " ++ "bad line")) ∧
        matchPred [5] (.error "bad line") = true) :=
  ⟨rfl, rfl, by decide,
    discovery_malformed_aborts 9 pollMalformed [] [5] [.error "bad line"] "bad line"
      rfl rfl (by decide)⟩

/-- C4.  Once the driver process is spawned, every run of the orchestration
attempts to kill it exactly once — whatever the inner closure returned
(success or any error) and whatever the kill attempt itself returned; when
the spawn itself failed no process exists and no kill is attempted. -/
theorem with_child_kills_once :
    (∀ (T : Type) (fres : Except String T) (killRes : Except String Unit),
        (with_child fres killRes).2 = 1) ∧
      (∀ (T : Type) (fres : Except String T) (killRes : Except String Unit),
        (with_fantoccini (.ok ()) fres killRes).2 = 1) ∧
      ∀ (T : Type) (e : String) (fres : Except String T) (killRes : Except String Unit),
        (with_fantoccini (.error e) fres killRes).2 = 0 := by
  refine ⟨fun T fres killRes => ?_, fun T fres killRes => ?_, fun T e fres killRes => rfl⟩
  · cases killRes <;> rfl
  · cases killRes <;> rfl

/-- Counterexample to C5 as stated: when the inner work fails with a primary
error and the kill also fails, the caller receives only the context-wrapped
teardown error; the primary error is not reported at all, alongside or
otherwise. -/
theorem with_child_masking_counterexample :
    (with_child (Except.error "primary failure" : Except String Nat)
          (.error "kill failed")).1 =
        .error "failed to shut down webdriver process: kill failed" ∧
      (with_child (Except.error "primary failure" : Except String Nat)
          (.error "kill failed")).1 ≠ .error "primary failure" :=
  ⟨rfl, by decide⟩

/-- C5 amended.  When the inner work of `with_child` returns an error and
the kill of the driver process also fails, the caller receives the
context-wrapped teardown error; the original primary error is discarded
(masked), independent of its content, rather than reported alongside. -/
theorem with_child_teardown_masks (T : Type) (e1 e2 : String) :
    (with_child (Except.error e1 : Except String T) (.error e2)).1 =
        .error ("failed to shut down webdriver process: " ++ e2) ∧
      (with_child (Except.error e1 : Except String T) (.error e2)).1 =
        (with_child (Except.error "any other primary error" : Except String T)
          (.error e2)).1 :=
  ⟨rfl, rfl⟩

/-- Counterexample to C6 as stated: in a run whose full-page capture fails,
the session close is never attempted — the close-call count is 0, not 1. -/
theorem screenshot_close_counterexample :
    closeCount (screenshot "http://example.com" none none
          { setRes := .ok (), gotoRes := .ok (), waitRes := .ok (), execRes := .ok (),
            findRes := .ok (), elemShotRes := .ok [], pageShotRes := .error "capture failed",
            closeRes := .ok () }).2 = 0 ∧
      (screenshot "http://example.com" none none
          { setRes := .ok (), gotoRes := .ok (), waitRes := .ok (), execRes := .ok (),
            findRes := .ok (), elemShotRes := .ok [], pageShotRes := .error "capture failed",
            closeRes := .ok () }).1 =
        .error "failed to screenshot `http://example.com`: capture failed" :=
  ⟨rfl, rfl⟩

/-- C6 amended.  The session close is attempted exactly once when every step
up to and including the capture succeeded, and not at all when any of them
failed; consequently the close outcome cannot overwrite an earlier capture
failure — the result of a failed run is unchanged when the close outcome is
replaced by an arbitrary error. -/
theorem screenshot_close_iff_capture_ok (url : String) (awaitSel sel : Option String)
    (env : WdEnv) (e : String) :
    closeCount (screenshot url awaitSel sel env).2 =
        (if preCloseOk awaitSel sel env then 1 else 0) ∧
      (preCloseOk awaitSel sel env = false →
        (screenshot url awaitSel sel env).1 =
          (screenshot url awaitSel sel { env with closeRes := .error e }).1) := by
  obtain ⟨st, go, wa, ex, fi, el, pa, cl⟩ := env
  cases awaitSel <;> cases sel <;> cases st <;> cases go <;> cases wa <;> cases fi <;>
      cases el <;> cases pa <;> cases cl <;>
    simp [screenshot, preCloseOk, closeCount, Except.isOk, Except.toBool]

/-- Witness for C6's amended statement: with a failing full-page capture the
close count is 0 and the reported error is the capture error, whatever the
close outcome would have been. -/
theorem screenshot_close_iff_capture_ok_witness :
    closeCount (screenshot "http://example.com" none none
          { setRes := .ok (), gotoRes := .ok (), waitRes := .ok (), execRes := .ok (),
            findRes := .ok (), elemShotRes := .ok [], pageShotRes := .error "boom",
            closeRes := .ok () }).2 =
        (if preCloseOk none none
            { setRes := .ok (), gotoRes := .ok (), waitRes := .ok (), execRes := .ok (),
              findRes := .ok (), elemShotRes := .ok [], pageShotRes := .error "boom",
              closeRes := .ok () } then 1 else 0) ∧
      (preCloseOk none none
          { setRes := .ok (), gotoRes := .ok (), waitRes := .ok (), execRes := .ok (),
            findRes := .ok (), elemShotRes := .ok [], pageShotRes := .error "boom",
            closeRes := .ok () } = false →
        (screenshot "http://example.com" none none
            { setRes := .ok (), gotoRes := .ok (), waitRes := .ok (), execRes := .ok (),
              findRes := .ok (), elemShotRes := .ok [], pageShotRes := .error "boom",
              closeRes := .ok () }).1 =
          (screenshot "http://example.com" none none
              { setRes := .ok (), gotoRes := .ok (), waitRes := .ok (), execRes := .ok (),
                findRes := .ok (), elemShotRes := .ok [], pageShotRes := .error "boom",
                closeRes := .error "close failed" }).1) :=
  screenshot_close_iff_capture_ok "http://example.com" none none
    { setRes := .ok (), gotoRes := .ok (), waitRes := .ok (), execRes := .ok (),
      findRes := .ok (), elemShotRes := .ok [], pageShotRes := .error "boom",
      closeRes := .ok () } "close failed"

/-- C10.  When no window size is configured, both capture sequences issue
`set_window_size(3840, 2160)` as the very first webdriver call of the run —
in particular before the navigation to the target URL — whatever the
outcomes of the calls are. -/
theorem window_size_default_first (url : String) (opts : ClientOpts)
    (awaitSel sel : Option String) (env : WdEnv) (h : opts.window_size = none) :
    (client_screenshot url opts env).2.head? = some (Ev.setWindowSize 3840 2160) ∧
      (screenshot url awaitSel sel env).2.head? = some (Ev.setWindowSize 3840 2160) := by
  obtain ⟨ws, aw, rm, se⟩ := opts
  simp only at h
  subst h
  obtain ⟨st, go, wa, ex, fi, el, pa, cl⟩ := env
  constructor
  · cases aw <;> cases rm <;> cases se <;> cases st <;> cases go <;> cases wa <;>
        cases ex <;> cases fi <;> cases el <;> cases pa <;>
      simp [client_screenshot]
  · cases awaitSel <;> cases sel <;> cases st <;> cases go <;> cases wa <;> cases fi <;>
        cases el <;> cases pa <;> cases cl <;>
      simp [screenshot]

/-- Witness for C10: with no configured window size and all calls
succeeding, both traces start with the 3840x2160 window-size call. -/
theorem window_size_default_first_witness :
    (client_screenshot "http://example.com"
          { window_size := none, await_selector := none, remove_selector := none,
            selector := none }
          { setRes := .ok (), gotoRes := .ok (), waitRes := .ok (), execRes := .ok (),
            findRes := .ok (), elemShotRes := .ok [], pageShotRes := .ok [],
            closeRes := .ok () }).2.head? = some (Ev.setWindowSize 3840 2160) ∧
      (screenshot "http://example.com" none none
          { setRes := .ok (), gotoRes := .ok (), waitRes := .ok (), execRes := .ok (),
            findRes := .ok (), elemShotRes := .ok [], pageShotRes := .ok [],
            closeRes := .ok () }).2.head? = some (Ev.setWindowSize 3840 2160) :=
  window_size_default_first "http://example.com"
    { window_size := none, await_selector := none, remove_selector := none,
      selector := none } none none
    { setRes := .ok (), gotoRes := .ok (), waitRes := .ok (), execRes := .ok (),
      findRes := .ok (), elemShotRes := .ok [], pageShotRes := .ok [],
      closeRes := .ok () } rfl

end Shave
